import Mathlib

/-
Verification of the moral-dilemma question platform (Express/Mongoose app).

The development shallowly embeds the Question model (src/unnamed/part_000,
second model file in that blob: the one defining viewSchema,
popularityMetricsSchema and the popularity methods), the respond route
(src/routes/questions.js), the bulk metrics sweep and the daily view-purge
cron (src/server.js).

Conventions:
- JS Date values and millisecond durations are modelled as Int (milliseconds
  since epoch); `now - new Date(t)` is Int subtraction.
- JS numbers in the scoring arithmetic are modelled as Rat.
- Mongoose subdocument casting applies the schema setters; in particular
  `trim: true` on responseSchema.explanation, responseSchema.responseText and
  choiceSchema.text applies String.prototype.trim when a pushed subdocument is
  cast.  JS trim is modelled by jsTrim below over the common whitespace
  characters; JS also strips a few exotic Unicode space characters, which none
  of the statements below depend on.
-/

namespace MoralDilemma

/-- One day in milliseconds: 24 * 60 * 60 * 1000 (source line 684). -/
def day : Int := 24 * 60 * 60 * 1000

/-- One week in milliseconds: 7 * day (source line 685). -/
def week : Int := 7 * day

/-- Thirty days in milliseconds: 30 * day (source line 686). -/
def month : Int := 30 * day

/-- A view event (viewSchema): timestamp, ipAddress, userAgent, sessionId, referrer. -/
structure View where
  timestamp : Int
  ipAddress : String
  userAgent : String
  sessionId : String
  referrer : String
deriving DecidableEq

/-- A response record (responseSchema).  The conditionally present fields
(choice for multiple_choice, responseText for paragraph, explanation when
supplied) are modelled as Option. -/
structure Response where
  choice : Option String
  explanation : Option String
  responseText : Option String
  timestamp : Int
  createdAt : Int
  ipAddress : String
  userAgent : String
deriving DecidableEq

/-- A choice option (choiceSchema): text plus a votes counter (default 0).
votes is modelled as Int so that non-negativity is a provable property
rather than a typing artifact. -/
structure Choice where
  text : String
  votes : Int
deriving DecidableEq

/-- questionType enum: multiple_choice or paragraph. -/
inductive QuestionType where
  | multiple_choice
  | paragraph
deriving DecidableEq

/-- The derived popularityMetrics subdocument (popularityMetricsSchema). -/
structure PopularityMetrics where
  totalViews : Nat
  uniqueViews : Nat
  totalResponses : Nat
  uniqueResponses : Nat
  viewsLast24h : Nat
  viewsLast7d : Nat
  viewsLast30d : Nat
  responsesLast24h : Nat
  responsesLast7d : Nat
  responsesLast30d : Nat
  popularityScore : Rat
  trendingScore : Rat
  engagementRate : Rat
  lastCalculated : Int
deriving DecidableEq

/-- All popularityMetrics fields default to 0 in the schema. -/
def emptyMetrics : PopularityMetrics :=
  { totalViews := 0, uniqueViews := 0, totalResponses := 0, uniqueResponses := 0
    viewsLast24h := 0, viewsLast7d := 0, viewsLast30d := 0
    responsesLast24h := 0, responsesLast7d := 0, responsesLast30d := 0
    popularityScore := 0, trendingScore := 0, engagementRate := 0
    lastCalculated := 0 }

/-- A question document (questionSchema). -/
structure Question where
  title : String
  slug : String
  category : String
  questionText : String
  questionType : QuestionType
  choices : List Choice
  responses : List Response
  views : List View
  popularityMetrics : PopularityMetrics
  featured : Bool
  tags : List String
  difficulty : String
  estimatedReadTime : Nat
  createdAt : Int
  updatedAt : Int
deriving DecidableEq

/-- The whitespace characters stripped by JS String.prototype.trim (common
subset: space, tab, newline, carriage return, vertical tab, form feed). -/
def jsIsWhitespace (c : Char) : Bool :=
  c = ' ' ∨ c = '\t' ∨ c = '\n' ∨ c = '\r' ∨ c = '\x0b' ∨ c = '\x0c'

/-- JS String.prototype.trim: drop leading and trailing whitespace. -/
def jsTrim (s : String) : String :=
  { data := ((s.data.dropWhile jsIsWhitespace).reverse.dropWhile jsIsWhitespace).reverse }

/-- JS Math.round: nearest integer, halves toward positive infinity. -/
def jsRound (x : Rat) : Int := ⌊x + 1/2⌋

/-- The rounding idiom Math.round(x * 100) / 100 used for the stored scores. -/
def round2 (x : Rat) : Rat := ((jsRound (x * 100) : Int) : Rat) / 100

/-- Embedding of questionSchema.methods.calculatePopularityMetrics
(source lines 682-758), given the instant now that the method reads from
the clock on entry (const now = new Date()).  Set cardinality of the IP
Sets is modelled with List.dedup length. -/
def calculatePopularityMetrics (q : Question) (now : Int) : PopularityMetrics :=
  let viewsLast24h := (q.views.filter (fun v => now - v.timestamp ≤ day)).length
  let viewsLast7d := (q.views.filter (fun v => now - v.timestamp ≤ week)).length
  let viewsLast30d := (q.views.filter (fun v => now - v.timestamp ≤ month)).length
  let responsesLast24h := (q.responses.filter (fun r => now - r.timestamp ≤ day)).length
  let responsesLast7d := (q.responses.filter (fun r => now - r.timestamp ≤ week)).length
  let responsesLast30d := (q.responses.filter (fun r => now - r.timestamp ≤ month)).length
  let uniqueViewIPs := (q.views.map View.ipAddress).dedup
  let uniqueResponseIPs := (q.responses.map Response.ipAddress).dedup
  let engagementRate : Rat :=
    if 0 < q.views.length then ((q.responses.length : Rat) / (q.views.length : Rat)) * 100 else 0
  let ageInDays : Rat := ((now - q.createdAt : Int) : Rat) / ((day : Int) : Rat)
  let ageFactor : Rat := max (1/10) (1 / (1 + ageInDays * (1/10)))
  let popularityScore : Rat :=
    ((viewsLast7d : Rat) * 2 + (responsesLast7d : Rat) * 5 + (uniqueViewIPs.length : Rat) * (3/2)
      + engagementRate * (1/2) + (if q.featured then 10 else 0)) * ageFactor
  let trendingScore : Rat :=
    (viewsLast24h : Rat) * 5 + (responsesLast24h : Rat) * 10
      + (viewsLast7d : Rat) * 2 + (responsesLast7d : Rat) * 4
  { totalViews := q.views.length
    uniqueViews := uniqueViewIPs.length
    totalResponses := q.responses.length
    uniqueResponses := uniqueResponseIPs.length
    viewsLast24h := viewsLast24h
    viewsLast7d := viewsLast7d
    viewsLast30d := viewsLast30d
    responsesLast24h := responsesLast24h
    responsesLast7d := responsesLast7d
    responsesLast30d := responsesLast30d
    popularityScore := round2 popularityScore
    trendingScore := round2 trendingScore
    engagementRate := round2 engagementRate
    lastCalculated := now }

/-- The full method call: it assigns this.popularityMetrics and persists via
this.save(); the pre-save hook sets updatedAt to the save instant (modelled
as the same now the method read on entry). -/
def applyCalculatePopularityMetrics (q : Question) (now : Int) : Question :=
  { q with popularityMetrics := calculatePopularityMetrics q now, updatedAt := now }

/-- Number of view events inside a trailing window stated the way the spec
states it: timestamp at or after now minus the window. -/
def viewsWithin (vs : List View) (now window : Int) : Nat :=
  (vs.filter (fun v => now - window ≤ v.timestamp)).length

/-- Number of response events inside a trailing window, spec form. -/
def responsesWithin (rs : List Response) (now window : Int) : Nat :=
  (rs.filter (fun r => now - window ≤ r.timestamp)).length

/-- Set cardinality of a list of IP addresses, spec form. -/
def uniqueIPCount (ips : List String) : Nat := ips.toFinset.card

/-- Spec form of the engagement rate: (totalResponses / totalViews) * 100
when totalViews is positive, else 0. -/
def specEngagementRate (totalResponses totalViews : Nat) : Rat :=
  if 0 < totalViews then ((totalResponses : Rat) / (totalViews : Rat)) * 100 else 0

/-- Spec form of the age decay: max(0.1, 1 / (1 + ageInDays * 0.1)) with
ageInDays = (now - createdAt) / 1 day. -/
def specAgeFactor (createdAt now : Int) : Rat :=
  max (1/10) (1 / (1 + (((now - createdAt : Int) : Rat) / ((day : Int) : Rat)) * (1/10)))

/-- Spec formula for popularityScore, built from the spec-form aggregates. -/
def specPopularityScore (q : Question) (now : Int) : Rat :=
  round2 ((((viewsWithin q.views now week : Nat) : Rat) * 2
      + ((responsesWithin q.responses now week : Nat) : Rat) * 5
      + ((uniqueIPCount (q.views.map View.ipAddress) : Nat) : Rat) * (3/2)
      + specEngagementRate q.responses.length q.views.length * (1/2)
      + (if q.featured then 10 else 0))
    * specAgeFactor q.createdAt now)

/-- Spec formula for trendingScore: no age-decay factor. -/
def specTrendingScore (q : Question) (now : Int) : Rat :=
  round2 (((viewsWithin q.views now day : Nat) : Rat) * 5
      + ((responsesWithin q.responses now day : Nat) : Rat) * 10
      + ((viewsWithin q.views now week : Nat) : Rat) * 2
      + ((responsesWithin q.responses now week : Nat) : Rat) * 4)

/-- Outcome of the respond route (POST /:category/:slug/respond) for a
multiple-choice question: ok, or one of the 400-class rejections, or the
500 fallback of the surrounding catch. -/
inductive RespondOutcome where
  | ok
  | wrongType
  | validationFailed
  | invalidChoice
  | serverError
deriving DecidableEq

/-- Joi multipleChoiceResponseSchema (routes/questions.js lines 7-10):
choice is a required non-empty string, explanation is a required string of
length 10 to 1000. -/
def multipleChoiceResponseValid (choice explanation : String) : Bool :=
  choice ≠ "" && 10 ≤ explanation.length && explanation.length ≤ 1000

/-- The vote increment inside addMultipleChoiceResponse (source lines
648-653): this.choices.find(c => c.text === choiceText) gets its votes
field incremented by 1; nothing changes when no choice matches. -/
def incrementVoteFirst : List Choice → String → List Choice
  | [], _ => []
  | c :: cs, t =>
    if c.text = t then { c with votes := c.votes + 1 } :: cs
    else c :: incrementVoteFirst cs t

/-- Embedding of questionSchema.methods.addMultipleChoiceResponse (source
lines 632-656).  none models the throw on a paragraph question.  The pushed
response is cast by responseSchema, whose explanation field carries
trim: true; choice carries no trim.  save() fires the pre-save hook, which
sets updatedAt. -/
def addMultipleChoiceResponse (q : Question) (choiceText explanation ip ua : String)
    (now : Int) : Option Question :=
  if q.questionType = QuestionType.multiple_choice then
    some { q with
      responses := q.responses ++ [{
        choice := some choiceText
        explanation := some (jsTrim explanation)
        responseText := none
        timestamp := now, createdAt := now, ipAddress := ip, userAgent := ua }]
      choices := incrementVoteFirst q.choices choiceText
      updatedAt := now }
  else none

/-- The multiple-choice branch of the respond route (routes/questions.js
lines 278-303): Joi validation, then the choice-exists check, then the
model method.  The pair returned is (observable outcome, stored question
state after the call). -/
def respondMultipleChoice (q : Question) (choice explanation ip ua : String)
    (now : Int) : RespondOutcome × Question :=
  if q.questionType = QuestionType.multiple_choice then
    if multipleChoiceResponseValid choice explanation then
      if (q.choices.find? (fun c => c.text == choice)).isSome then
        match addMultipleChoiceResponse q choice explanation ip ua now with
        | some q2 => (RespondOutcome.ok, q2)
        | none => (RespondOutcome.serverError, q)
      else (RespondOutcome.invalidChoice, q)
    else (RespondOutcome.validationFailed, q)
  else (RespondOutcome.wrongType, q)

/-- Embedding of questionSchema.methods.addParagraphResponse (source lines
658-679) together with the mongoose save-time validation of the pushed
subdocument.  The explanation field is attached only when explanation is
truthy and non-blank after trimming; responseSchema trims both explanation
and responseText on cast (setters run before validators).  save() then
validates the new subdocument: responseText is required for a paragraph
question and the required validator rejects the empty string (so a
whitespace-only responseText, trimmed to empty, makes save() reject), and
the stored responseText and explanation are bounded by maxlength 2000 and
1000.  none models both the synchronous throw on a multiple-choice
question and a rejected save(); neither persists anything.  Validators of
fields this method does not write apply to the already-stored document and
are untouched by the call. -/
def addParagraphResponse (q : Question) (responseText explanation ip ua : String)
    (now : Int) : Option Question :=
  if q.questionType = QuestionType.paragraph then
    let storedText := jsTrim responseText
    let storedExplanation : Option String :=
      if explanation ≠ "" && jsTrim explanation ≠ "" then some (jsTrim explanation)
      else none
    if storedText ≠ "" && storedText.length ≤ 2000
        && storedExplanation.all (fun e => e.length ≤ 1000) then
      some { q with
        responses := q.responses ++ [{
          choice := none
          explanation := storedExplanation
          responseText := some storedText
          timestamp := now, createdAt := now, ipAddress := ip, userAgent := ua }]
        updatedAt := now }
    else none
  else none

/-- One submitted multiple-choice payload together with the request identity
and the server clock at that request. -/
structure MCOp where
  choice : String
  explanation : String
  ip : String
  ua : String
  now : Int

/-- The stored state after one respond call: the updated document on ok,
the untouched document on any rejection. -/
def stepRespond (q : Question) (op : MCOp) : Question :=
  (respondMultipleChoice q op.choice op.explanation op.ip op.ua op.now).2

/-- The stored state after a sequence of respond calls. -/
def runResponds (q : Question) (ops : List MCOp) : Question :=
  ops.foldl stepRespond q

/-- Sum of the vote counters, as in the totalVotes virtual (source lines
601-606). -/
def sumVotes (cs : List Choice) : Int := (cs.map Choice.votes).sum

/-- The C4 consistency property: vote counters sum to the stored response
count and no counter is negative. -/
def voteInvariant (q : Question) : Prop :=
  sumVotes q.choices = (q.responses.length : Int) ∧ ∀ c ∈ q.choices, 0 ≤ c.votes

/-- A freshly created multiple-choice question, as built by the admin create
route (src/unnamed/part_003 lines 85-116): every choice starts at votes 0
with schema-trimmed text, and the event logs start empty. -/
def mkFreshQuestion (title slug category questionText : String)
    (choiceTexts : List String) (featured : Bool) (now : Int) : Question :=
  { title := title, slug := slug, category := category, questionText := questionText
    questionType := QuestionType.multiple_choice
    choices := choiceTexts.map (fun t => { text := jsTrim t, votes := 0 })
    responses := [], views := [], popularityMetrics := emptyMetrics
    featured := featured, tags := [], difficulty := "medium", estimatedReadTime := 2
    createdAt := now, updatedAt := now }

/-- Embedding of the static updateAllPopularityMetrics (source lines
764-768) as run by the hourly cron (server.js lines 2199-2252): the method
maps every question to a calculatePopularityMetrics() promise and awaits
Promise.all.  Every per-question update promise is created up front, so each
question is recomputed and saved independently of the other entries;
whether a given save is accepted by the store is outside src and is
modelled by the saveFails oracle.  The Bool is true when Promise.all
rejects, which the cron handler catches and logs. -/
def updateAllPopularityMetrics (qs : List Question) (saveFails : Question → Bool)
    (now : Int) : List Question × Bool :=
  (qs.map (fun q => if saveFails q then q else applyCalculatePopularityMetrics q now),
   qs.any saveFails)

/-- The sort keys appearing in the question statics; every key in the source
carries direction -1 (descending). -/
inductive SortField where
  | popularityScore
  | trendingScore
  | createdAt
  | totalResponses
deriving DecidableEq

/-- The sortBy options of getByCategory. -/
inductive SortBy where
  | popularity
  | trending
  | newest
  | most_responses
deriving DecidableEq

/-- The value a sort key reads from a document (dates compared by their
millisecond value). -/
def fieldVal : SortField → Question → Rat
  | SortField.popularityScore, q => q.popularityMetrics.popularityScore
  | SortField.trendingScore, q => q.popularityMetrics.trendingScore
  | SortField.createdAt, q => (q.createdAt : Rat)
  | SortField.totalResponses, q => (q.popularityMetrics.totalResponses : Rat)

/-- The mongo sort specification chosen by getByCategory (source lines
814-829); every listed key is descending. -/
def getByCategorySortOptions : SortBy → List SortField
  | SortBy.trending => [SortField.trendingScore, SortField.createdAt]
  | SortBy.newest => [SortField.createdAt]
  | SortBy.most_responses => [SortField.totalResponses, SortField.createdAt]
  | SortBy.popularity => [SortField.popularityScore, SortField.createdAt]

/-- The mongo sort specification of the global getTrending (source lines
884-889): trendingScore descending only. -/
def getTrendingSortOptions : List SortField := [SortField.trendingScore]

/-- The mongo sort specification of the global getMostPopular (source lines
892-897): popularityScore descending only. -/
def getMostPopularSortOptions : List SortField := [SortField.popularityScore]

/-- How one descending key orders two values: lt means the first document
sorts earlier. -/
def descCompare (x y : Rat) : Ordering :=
  if y < x then Ordering.lt else if x < y then Ordering.gt else Ordering.eq

/-- How a list of descending sort keys orders two documents; eq means the
specification leaves the pair unordered. -/
def keyCompare : List SortField → Question → Question → Ordering
  | [], _, _ => Ordering.eq
  | f :: fs, a, b =>
    match descCompare (fieldVal f a) (fieldVal f b) with
    | Ordering.eq => keyCompare fs a b
    | o => o

/-- Embedding of the daily 2 AM cleanup cron (server.js lines 2254-2271):
updateMany({}, { pull views with timestamp < now - 90 days }) on one
question.  updateMany bypasses the save middleware, so updatedAt is
untouched. -/
def purgeOldViews (q : Question) (now : Int) : Question :=
  { q with views := q.views.filter (fun v => ¬ (v.timestamp < now - 90 * day)) }

/-- A view event with only the fields the scoring engine reads. -/
def mkView (t : Int) (ip : String) : View :=
  { timestamp := t, ipAddress := ip, userAgent := "", sessionId := "", referrer := "" }

/-- A concrete question fixture with the content fields held constant. -/
def exampleQuestion (qt : QuestionType) (cs : List Choice) (rs : List Response)
    (vs : List View) : Question :=
  { title := "t", slug := "s", category := "love", questionText := "qt"
    questionType := qt, choices := cs, responses := rs, views := vs
    popularityMetrics := emptyMetrics, featured := false, tags := []
    difficulty := "medium", estimatedReadTime := 2, createdAt := 0, updatedAt := 0 }

/-- A multiple-choice fixture with two choices A and B and empty logs. -/
def qMC : Question :=
  exampleQuestion QuestionType.multiple_choice
    [{ text := "A", votes := 0 }, { text := "B", votes := 0 }] [] []

/-- A paragraph fixture with empty logs. -/
def qPara : Question := exampleQuestion QuestionType.paragraph [] [] []

/-- Five views from two distinct IPs: three from a, two from b. -/
def qFiveViews : Question :=
  exampleQuestion QuestionType.multiple_choice
    [{ text := "A", votes := 0 }, { text := "B", votes := 0 }]
    []
    [mkView 0 "a", mkView 0 "a", mkView 0 "a", mkView 0 "b", mkView 0 "b"]

/-- Three views and one response, to exercise the engagement ratio 1/3. -/
def qThreeViews : Question :=
  exampleQuestion QuestionType.multiple_choice
    [{ text := "A", votes := 0 }, { text := "B", votes := 0 }]
    [{ choice := some "A", explanation := some "why not after all", responseText := none
       timestamp := 0, createdAt := 0, ipAddress := "a", userAgent := "" }]
    [mkView 0 "a", mkView 0 "b", mkView 0 "c"]

/-- The same document with a different title only. -/
def qThreeViewsRetitled : Question := { qThreeViews with title := "another title" }

/-- A question the store rejects in the sweep fixture. -/
def qSweepBad : Question := { qMC with slug := "bad" }

/-- The sweep fixture oracle: saving the document with slug bad fails. -/
def sweepFailsOnBad (q : Question) : Bool := q.slug == "bad"

/-- Metrics shared by the two sort fixtures: every score tied. -/
def tieMetrics : PopularityMetrics :=
  { emptyMetrics with popularityScore := 5, trendingScore := 7, totalResponses := 3 }

/-- Sort fixture created at millisecond 100. -/
def qSortOld : Question :=
  { exampleQuestion QuestionType.multiple_choice [] [] [] with
    popularityMetrics := tieMetrics, createdAt := 100 }

/-- Sort fixture created at millisecond 200, with the same scores. -/
def qSortNew : Question :=
  { exampleQuestion QuestionType.multiple_choice [] [] [] with
    popularityMetrics := tieMetrics, createdAt := 200 }

theorem length_filter_views_window (vs : List View) (now w : Int) :
    (vs.filter (fun v => now - v.timestamp ≤ w)).length = viewsWithin vs now w := by
  unfold viewsWithin
  congr 1
  apply List.filter_congr
  intro v _
  rw [decide_eq_decide]
  omega

theorem length_filter_responses_window (rs : List Response) (now w : Int) :
    (rs.filter (fun r => now - r.timestamp ≤ w)).length = responsesWithin rs now w := by
  unfold responsesWithin
  congr 1
  apply List.filter_congr
  intro r _
  rw [decide_eq_decide]
  omega

theorem dedup_length_eq_uniqueIPCount (l : List String) :
    l.dedup.length = uniqueIPCount l := by
  rw [uniqueIPCount, List.card_toFinset]

theorem round2_eq (x : Rat) (n : Int) (h1 : (n : Rat) ≤ x * 100 + 1/2)
    (h2 : x * 100 + 1/2 < (n : Rat) + 1) : round2 x = (n : Rat) / 100 := by
  rw [round2, jsRound, Int.floor_eq_iff.mpr ⟨h1, h2⟩]

/-- C1: for every question and reference instant, the stored popularityScore
is the weighted sum (views7d*2 + responses7d*5 + uniqueViews*1.5 +
engagementRate*0.5 + featured bonus 10) scaled by the age factor
max(0.1, 1/(1 + ageInDays*0.1)) and rounded to 2 decimal places, and the
stored trendingScore is views24h*5 + responses24h*10 + views7d*2 +
responses7d*4 rounded to 2 decimal places with no age decay applied. -/
theorem popularity_trending_formula (q : Question) (now : Int) :
    (calculatePopularityMetrics q now).popularityScore = specPopularityScore q now
  ∧ (calculatePopularityMetrics q now).trendingScore = specTrendingScore q now := by
  constructor
  · show round2 _ = _
    rw [specPopularityScore, length_filter_views_window, length_filter_responses_window,
      dedup_length_eq_uniqueIPCount]
    rfl
  · show round2 _ = _
    rw [specTrendingScore, length_filter_views_window, length_filter_views_window,
      length_filter_responses_window, length_filter_responses_window]

/-- C2: every one of the six windowed counts stored by
calculatePopularityMetrics counts exactly the events whose timestamp t
satisfies t at or after now minus the window (now - window is inclusive),
and on a singleton log an event at exactly now - 24h is counted while an
event at now - 24h - 1ms is not. -/
theorem window_counts_inclusive (q : Question) (now : Int) :
    (calculatePopularityMetrics q now).viewsLast24h = viewsWithin q.views now day
  ∧ (calculatePopularityMetrics q now).viewsLast7d = viewsWithin q.views now week
  ∧ (calculatePopularityMetrics q now).viewsLast30d = viewsWithin q.views now month
  ∧ (calculatePopularityMetrics q now).responsesLast24h = responsesWithin q.responses now day
  ∧ (calculatePopularityMetrics q now).responsesLast7d = responsesWithin q.responses now week
  ∧ (calculatePopularityMetrics q now).responsesLast30d = responsesWithin q.responses now month
  ∧ viewsWithin [mkView (now - day) "a"] now day = 1
  ∧ viewsWithin [mkView (now - day - 1) "a"] now day = 0 := by
  refine ⟨length_filter_views_window q.views now day,
    length_filter_views_window q.views now week,
    length_filter_views_window q.views now month,
    length_filter_responses_window q.responses now day,
    length_filter_responses_window q.responses now week,
    length_filter_responses_window q.responses now month, ?_, ?_⟩
  · have hb : now - day ≤ now - day := le_refl _
    simp [viewsWithin, mkView, hb]
  · have hb : ¬ (now - day ≤ now - day - 1) := by omega
    simp [viewsWithin, mkView, hb]
    omega

/-- C6 counterexample: with 3 views and 1 response the stored engagementRate
is the ratio rounded to 2 decimal places, 33.33, not the exact ratio 100/3
that the claim states. -/
theorem engagement_rate_not_exact_ratio :
    (calculatePopularityMetrics qThreeViews 0).totalViews = 3
  ∧ (calculatePopularityMetrics qThreeViews 0).totalResponses = 1
  ∧ (calculatePopularityMetrics qThreeViews 0).engagementRate = 3333/100
  ∧ (calculatePopularityMetrics qThreeViews 0).engagementRate
      ≠ ((1 : Rat) / 3) * 100 := by
  have he : (calculatePopularityMetrics qThreeViews 0).engagementRate
      = round2 (((1 : Rat) / 3) * 100) := by
    show round2 _ = _
    congr 1
  have hv : round2 (((1 : Rat) / 3) * 100) = 3333/100 := by
    rw [round2_eq (((1 : Rat) / 3) * 100) 3333 (by norm_num) (by norm_num)]
    norm_num
  refine ⟨rfl, rfl, he.trans hv, ?_⟩
  rw [he, hv]
  norm_num

/-- C6 amended: uniqueViews and uniqueResponses are the set cardinalities of
the IP addresses over the full all-time Views and Responses lists,
totalViews and totalResponses are the all-time list lengths, and the stored
engagementRate is the all-time ratio (totalResponses/totalViews)*100 (or 0
when there are no views) rounded to 2 decimal places; 5 views from 2
distinct IPs yield uniqueViews = 2 and totalViews = 5. -/
theorem unique_counts_engagement (q : Question) (now : Int) :
    (calculatePopularityMetrics q now).uniqueViews = uniqueIPCount (q.views.map View.ipAddress)
  ∧ (calculatePopularityMetrics q now).uniqueResponses
      = uniqueIPCount (q.responses.map Response.ipAddress)
  ∧ (calculatePopularityMetrics q now).totalViews = q.views.length
  ∧ (calculatePopularityMetrics q now).totalResponses = q.responses.length
  ∧ (calculatePopularityMetrics q now).engagementRate
      = round2 (specEngagementRate q.responses.length q.views.length)
  ∧ (calculatePopularityMetrics qFiveViews 0).uniqueViews = 2
  ∧ (calculatePopularityMetrics qFiveViews 0).totalViews = 5 := by
  refine ⟨dedup_length_eq_uniqueIPCount _, dedup_length_eq_uniqueIPCount _, rfl, rfl, rfl,
    by decide, by decide⟩

/-- C5 counterexample: the method is not a side-effect-free computation on an
explicitly supplied instant; it reads the clock itself and writes the result
back into the question document (this.popularityMetrics plus save), so the
call changes the document at this concrete input. -/
theorem calculate_metrics_mutates_question :
    (applyCalculatePopularityMetrics qThreeViews 1000).popularityMetrics
      ≠ qThreeViews.popularityMetrics := by
  intro h
  have h2 := congrArg PopularityMetrics.lastCalculated h
  exact absurd h2 (by decide)

/-- C5 amended: the computed metrics depend only on Views, Responses,
createdAt and featured together with the instant now that the method reads
from the clock on entry; recomputing after a completed call with the same
now yields identical metrics, and lastCalculated is that now. -/
theorem calculate_metrics_deterministic_idempotent (q r : Question) (now : Int)
    (hv : q.views = r.views) (hr : q.responses = r.responses)
    (hc : q.createdAt = r.createdAt) (hf : q.featured = r.featured) :
    calculatePopularityMetrics q now = calculatePopularityMetrics r now
  ∧ calculatePopularityMetrics (applyCalculatePopularityMetrics q now) now
      = calculatePopularityMetrics q now
  ∧ (calculatePopularityMetrics q now).lastCalculated = now := by
  refine ⟨?_, rfl, rfl⟩
  simp only [calculatePopularityMetrics, hv, hr, hc, hf]

/-- C5 witness: the amended statement instantiated at two concrete documents
differing only in their title, at instant 9. -/
theorem calculate_metrics_deterministic_idempotent_witness :
    calculatePopularityMetrics qThreeViews 9 = calculatePopularityMetrics qThreeViewsRetitled 9
  ∧ calculatePopularityMetrics (applyCalculatePopularityMetrics qThreeViews 9) 9
      = calculatePopularityMetrics qThreeViews 9
  ∧ (calculatePopularityMetrics qThreeViews 9).lastCalculated = 9 :=
  calculate_metrics_deterministic_idempotent qThreeViews qThreeViewsRetitled 9 rfl rfl rfl rfl

theorem jsTrim_empty : jsTrim "" = "" := rfl

/-- C3 counterexample: a payload whose choice is unknown but whose
explanation violates the Joi shape bounds is rejected as validationFailed
by the route, not as invalidChoice, although the choice Z matches no
option of the question. -/
theorem respond_unknown_choice_shape_first :
    (respondMultipleChoice qMC "Z" "short" "ip" "ua" 3).1 = RespondOutcome.validationFailed
  ∧ RespondOutcome.validationFailed ≠ RespondOutcome.invalidChoice
  ∧ qMC.choices.all (fun c => c.text != "Z") = true := by
  decide

/-- C3 amended: for a multiple-choice question, a payload that passes the
Joi shape validation and whose choice matches no existing option is
rejected with invalidChoice and the stored question is unchanged. -/
theorem respond_unknown_choice_invalid (q : Question) (choice explanation ip ua : String)
    (now : Int) (hq : q.questionType = QuestionType.multiple_choice)
    (hv : multipleChoiceResponseValid choice explanation = true)
    (hc : ∀ c ∈ q.choices, c.text ≠ choice) :
    respondMultipleChoice q choice explanation ip ua now = (RespondOutcome.invalidChoice, q) := by
  have hf : q.choices.find? (fun c => c.text == choice) = none := by
    rw [List.find?_eq_none]
    intro c hm
    simpa [beq_iff_eq] using hc c hm
  simp [respondMultipleChoice, hq, hv, hf]

/-- C3 witness: the amended statement at a concrete two-option question and
a well-shaped payload naming the absent option Z. -/
theorem respond_unknown_choice_invalid_witness :
    respondMultipleChoice qMC "Z" "a long enough explanation" "ip" "ua" 3
      = (RespondOutcome.invalidChoice, qMC) :=
  respond_unknown_choice_invalid qMC "Z" "a long enough explanation" "ip" "ua" 3 rfl
    (by decide) (by decide)

theorem sumVotes_cons (c : Choice) (cs : List Choice) :
    sumVotes (c :: cs) = c.votes + sumVotes cs := by
  simp [sumVotes]

theorem sumVotes_incrementVoteFirst (cs : List Choice) (t : String)
    (h : (cs.find? (fun c => c.text == t)).isSome = true) :
    sumVotes (incrementVoteFirst cs t) = sumVotes cs + 1 := by
  induction cs with
  | nil => simp [List.find?] at h
  | cons c cs ih =>
    by_cases hc : c.text = t
    · simp only [incrementVoteFirst, if_pos hc]
      rw [sumVotes_cons, sumVotes_cons]
      show c.votes + 1 + sumVotes cs = c.votes + sumVotes cs + 1
      ring
    · have hpa : (c.text == t) = false := by simp [hc]
      have h2 : (cs.find? (fun x => x.text == t)).isSome = true := by
        simpa [List.find?, hpa] using h
      simp only [incrementVoteFirst, if_neg hc]
      rw [sumVotes_cons, sumVotes_cons, ih h2]
      ring

theorem votes_nonneg_incrementVoteFirst (cs : List Choice) (t : String)
    (h : ∀ c ∈ cs, 0 ≤ c.votes) :
    ∀ c ∈ incrementVoteFirst cs t, 0 ≤ c.votes := by
  induction cs with
  | nil => simp [incrementVoteFirst]
  | cons c cs ih =>
    rw [List.forall_mem_cons] at h
    by_cases hc : c.text = t
    · simp only [incrementVoteFirst, if_pos hc]
      rw [List.forall_mem_cons]
      refine ⟨?_, h.2⟩
      show 0 ≤ c.votes + 1
      have := h.1
      omega
    · simp only [incrementVoteFirst, if_neg hc]
      rw [List.forall_mem_cons]
      exact ⟨h.1, ih h.2⟩

theorem voteInvariant_stepRespond (q : Question) (op : MCOp) (h : voteInvariant q) :
    voteInvariant (stepRespond q op) := by
  by_cases hq : q.questionType = QuestionType.multiple_choice
  · by_cases hv : multipleChoiceResponseValid op.choice op.explanation = true
    · by_cases hf : (q.choices.find? (fun c => c.text == op.choice)).isSome = true
      · have hstep : stepRespond q op = { q with
            responses := q.responses ++ [{
              choice := some op.choice
              explanation := some (jsTrim op.explanation)
              responseText := none
              timestamp := op.now, createdAt := op.now
              ipAddress := op.ip, userAgent := op.ua }]
            choices := incrementVoteFirst q.choices op.choice
            updatedAt := op.now } := by
          simp [stepRespond, respondMultipleChoice, addMultipleChoiceResponse, hq, hv, hf]
        rw [hstep]
        obtain ⟨h1, h2⟩ := h
        constructor
        · show sumVotes (incrementVoteFirst q.choices op.choice) = _
          rw [sumVotes_incrementVoteFirst q.choices op.choice hf, h1]
          simp
        · exact votes_nonneg_incrementVoteFirst q.choices op.choice h2
      · have hstep : stepRespond q op = q := by
          simp [stepRespond, respondMultipleChoice, hq, hv, hf]
        rwa [hstep]
    · have hstep : stepRespond q op = q := by
        simp [stepRespond, respondMultipleChoice, hq, hv]
      rwa [hstep]
  · have hstep : stepRespond q op = q := by
      simp [stepRespond, respondMultipleChoice, hq]
    rwa [hstep]

theorem voteInvariant_runResponds (q : Question) (ops : List MCOp) (h : voteInvariant q) :
    voteInvariant (runResponds q ops) := by
  induction ops generalizing q with
  | nil => simpa [runResponds] using h
  | cons op ops ih =>
    show voteInvariant (List.foldl stepRespond (stepRespond q op) ops)
    exact ih (stepRespond q op) (voteInvariant_stepRespond q op h)

theorem sumVotes_fresh (ts : List String) :
    sumVotes (ts.map (fun t => ({ text := jsTrim t, votes := 0 } : Choice))) = 0 := by
  induction ts with
  | nil => rfl
  | cons t ts ih =>
    simp [sumVotes] at ih ⊢
    exact ih

theorem voteInvariant_mkFreshQuestion (title slug category questionText : String)
    (choiceTexts : List String) (featured : Bool) (t0 : Int) :
    voteInvariant (mkFreshQuestion title slug category questionText choiceTexts featured t0) := by
  constructor
  · show sumVotes (choiceTexts.map _) = _
    rw [sumVotes_fresh]
    rfl
  · intro c hc
    simp [mkFreshQuestion] at hc
    obtain ⟨t, _, rfl⟩ := hc
    exact le_refl 0

/-- C4: starting from a freshly created multiple-choice question, after any
sequence of respond calls the vote counters sum to the stored number of
response records and every counter is non-negative (rejected calls leave
the document untouched, successful ones append one response and increment
the matched choice). -/
theorem vote_sum_consistency (title slug category questionText : String)
    (choiceTexts : List String) (featured : Bool) (t0 : Int) (ops : List MCOp) :
    sumVotes (runResponds (mkFreshQuestion title slug category questionText choiceTexts
        featured t0) ops).choices
      = ((runResponds (mkFreshQuestion title slug category questionText choiceTexts
          featured t0) ops).responses.length : Int)
  ∧ ∀ c ∈ (runResponds (mkFreshQuestion title slug category questionText choiceTexts
      featured t0) ops).choices, 0 ≤ c.votes :=
  voteInvariant_runResponds _ ops
    (voteInvariant_mkFreshQuestion title slug category questionText choiceTexts featured t0)

/-- C4 witness: the invariant equation at a concrete fresh question after
two accepted responses for option A and one rejected payload. -/
theorem vote_sum_consistency_witness :
    sumVotes (runResponds (mkFreshQuestion "t" "s" "love" "q" ["A", "B"] false 0)
        [{ choice := "A", explanation := "a first valid explanation", ip := "a", ua := "", now := 1 },
         { choice := "Z", explanation := "a second valid explanation", ip := "b", ua := "", now := 2 },
         { choice := "A", explanation := "a third valid explanation", ip := "c", ua := "", now := 3 }]).choices
      = ((runResponds (mkFreshQuestion "t" "s" "love" "q" ["A", "B"] false 0)
          [{ choice := "A", explanation := "a first valid explanation", ip := "a", ua := "", now := 1 },
           { choice := "Z", explanation := "a second valid explanation", ip := "b", ua := "", now := 2 },
           { choice := "A", explanation := "a third valid explanation", ip := "c", ua := "", now := 3 }]).responses.length : Int) :=
  (vote_sum_consistency "t" "s" "love" "q" ["A", "B"] false 0
    [{ choice := "A", explanation := "a first valid explanation", ip := "a", ua := "", now := 1 },
     { choice := "Z", explanation := "a second valid explanation", ip := "b", ua := "", now := 2 },
     { choice := "A", explanation := "a third valid explanation", ip := "c", ua := "", now := 3 }]).1

/-- C7: when some entity in the batch fails to persist, the sweep still
maps every other entity to its recomputed metrics, leaves the failing
entity at its old state, and surfaces the failure (the rejected Promise.all
that the cron handler logs); it does not abort the batch. -/
theorem sweep_isolates_failing_entities (qs : List Question)
    (saveFails : Question → Bool) (now : Int)
    (hfail : ∃ q ∈ qs, saveFails q = true) :
    (updateAllPopularityMetrics qs saveFails now).2 = true
  ∧ ∀ i : Nat, ((updateAllPopularityMetrics qs saveFails now).1)[i]?
      = (qs[i]?).map
          (fun q => if saveFails q then q else applyCalculatePopularityMetrics q now) := by
  constructor
  · simpa [updateAllPopularityMetrics, List.any_eq_true] using hfail
  · intro i
    simp [updateAllPopularityMetrics]

/-- C7 witness: a two-entity batch whose second entity fails to save. -/
theorem sweep_isolates_failing_entities_witness :
    (updateAllPopularityMetrics [qMC, qSweepBad] sweepFailsOnBad 5).2 = true
  ∧ ∀ i : Nat, ((updateAllPopularityMetrics [qMC, qSweepBad] sweepFailsOnBad 5).1)[i]?
      = (([qMC, qSweepBad] : List Question)[i]?).map
          (fun q => if sweepFailsOnBad q then q else applyCalculatePopularityMetrics q 5) :=
  sweep_isolates_failing_entities [qMC, qSweepBad] sweepFailsOnBad 5
    ⟨qSweepBad, by decide, by decide⟩

theorem keyCompare_singleton (f : SortField) (a b : Question) :
    keyCompare [f] a b = descCompare (fieldVal f a) (fieldVal f b) := by
  cases hd : descCompare (fieldVal f a) (fieldVal f b) <;> simp [keyCompare, hd]

theorem keyCompare_cons_eq (f : SortField) (fs : List SortField) (a b : Question)
    (h : descCompare (fieldVal f a) (fieldVal f b) = Ordering.eq) :
    keyCompare (f :: fs) a b = keyCompare fs a b := by
  simp [keyCompare, h]

/-- C8 counterexample: two documents with identical scores but different
creation instants; the global getTrending and getMostPopular sort
specifications leave the pair unordered, while the per-category trending
specification does order it by createdAt descending. -/
theorem global_sort_leaves_ties_unordered :
    keyCompare getTrendingSortOptions qSortOld qSortNew = Ordering.eq
  ∧ keyCompare getMostPopularSortOptions qSortOld qSortNew = Ordering.eq
  ∧ qSortOld.createdAt ≠ qSortNew.createdAt
  ∧ keyCompare (getByCategorySortOptions SortBy.trending) qSortOld qSortNew = Ordering.gt := by
  decide

/-- C8 amended: in the per-category query every one of the four sort orders
falls back to createdAt descending on tied primary keys (for newest the
primary key already is createdAt descending), while the global getTrending
and getMostPopular queries sort by their score alone and leave ties
unordered. -/
theorem category_sorts_tiebreak_by_createdAt (a b : Question)
    (h1 : a.popularityMetrics.popularityScore = b.popularityMetrics.popularityScore)
    (h2 : a.popularityMetrics.trendingScore = b.popularityMetrics.trendingScore)
    (h3 : a.popularityMetrics.totalResponses = b.popularityMetrics.totalResponses) :
    keyCompare (getByCategorySortOptions SortBy.popularity) a b
      = descCompare (a.createdAt : Rat) (b.createdAt : Rat)
  ∧ keyCompare (getByCategorySortOptions SortBy.trending) a b
      = descCompare (a.createdAt : Rat) (b.createdAt : Rat)
  ∧ keyCompare (getByCategorySortOptions SortBy.most_responses) a b
      = descCompare (a.createdAt : Rat) (b.createdAt : Rat)
  ∧ keyCompare (getByCategorySortOptions SortBy.newest) a b
      = descCompare (a.createdAt : Rat) (b.createdAt : Rat)
  ∧ keyCompare getTrendingSortOptions a b = Ordering.eq
  ∧ keyCompare getMostPopularSortOptions a b = Ordering.eq := by
  have e1 : descCompare (fieldVal SortField.popularityScore a)
      (fieldVal SortField.popularityScore b) = Ordering.eq := by
    simp [descCompare, fieldVal, h1]
  have e2 : descCompare (fieldVal SortField.trendingScore a)
      (fieldVal SortField.trendingScore b) = Ordering.eq := by
    simp [descCompare, fieldVal, h2]
  have e3 : descCompare (fieldVal SortField.totalResponses a)
      (fieldVal SortField.totalResponses b) = Ordering.eq := by
    simp [descCompare, fieldVal, h3]
  refine ⟨?_, ?_, ?_, ?_, ?_, ?_⟩
  · rw [getByCategorySortOptions, keyCompare_cons_eq _ _ _ _ e1, keyCompare_singleton]
    rfl
  · rw [getByCategorySortOptions, keyCompare_cons_eq _ _ _ _ e2, keyCompare_singleton]
    rfl
  · rw [getByCategorySortOptions, keyCompare_cons_eq _ _ _ _ e3, keyCompare_singleton]
    rfl
  · rw [getByCategorySortOptions, keyCompare_singleton]
    rfl
  · rw [getTrendingSortOptions, keyCompare_singleton, e2]
  · rw [getMostPopularSortOptions, keyCompare_singleton, e1]

/-- C8 witness: the amended statement at the two tied fixtures. -/
theorem category_sorts_tiebreak_by_createdAt_witness :
    keyCompare (getByCategorySortOptions SortBy.popularity) qSortOld qSortNew
      = descCompare (qSortOld.createdAt : Rat) (qSortNew.createdAt : Rat)
  ∧ keyCompare (getByCategorySortOptions SortBy.trending) qSortOld qSortNew
      = descCompare (qSortOld.createdAt : Rat) (qSortNew.createdAt : Rat)
  ∧ keyCompare (getByCategorySortOptions SortBy.most_responses) qSortOld qSortNew
      = descCompare (qSortOld.createdAt : Rat) (qSortNew.createdAt : Rat)
  ∧ keyCompare (getByCategorySortOptions SortBy.newest) qSortOld qSortNew
      = descCompare (qSortOld.createdAt : Rat) (qSortNew.createdAt : Rat)
  ∧ keyCompare getTrendingSortOptions qSortOld qSortNew = Ordering.eq
  ∧ keyCompare getMostPopularSortOptions qSortOld qSortNew = Ordering.eq :=
  category_sorts_tiebreak_by_createdAt qSortOld qSortNew rfl rfl rfl

/-- C9: the daily purge keeps exactly the views whose timestamp is at or
after now minus 90 days (views strictly older are removed, a view exactly
at the boundary stays), and every other field of the document, including
responses, choices, metrics and updatedAt, is untouched. -/
theorem purge_views_frame (q : Question) (now : Int) :
    (∀ v : View, v ∈ (purgeOldViews q now).views ↔ v ∈ q.views ∧ now - 90 * day ≤ v.timestamp)
  ∧ (purgeOldViews q now).responses = q.responses
  ∧ (purgeOldViews q now).choices = q.choices
  ∧ (purgeOldViews q now).popularityMetrics = q.popularityMetrics
  ∧ (purgeOldViews q now).title = q.title
  ∧ (purgeOldViews q now).slug = q.slug
  ∧ (purgeOldViews q now).category = q.category
  ∧ (purgeOldViews q now).questionText = q.questionText
  ∧ (purgeOldViews q now).questionType = q.questionType
  ∧ (purgeOldViews q now).featured = q.featured
  ∧ (purgeOldViews q now).tags = q.tags
  ∧ (purgeOldViews q now).difficulty = q.difficulty
  ∧ (purgeOldViews q now).estimatedReadTime = q.estimatedReadTime
  ∧ (purgeOldViews q now).createdAt = q.createdAt
  ∧ (purgeOldViews q now).updatedAt = q.updatedAt := by
  refine ⟨?_, rfl, rfl, rfl, rfl, rfl, rfl, rfl, rfl, rfl, rfl, rfl, rfl, rfl, rfl⟩
  intro v
  simp [purgeOldViews, List.mem_filter, not_lt]

/-- C10 counterexample: a padded but non-blank explanation is stored
trimmed by the responseSchema trim setter, not verbatim. -/
theorem paragraph_explanation_not_verbatim :
    ((addParagraphResponse qPara "some response text" " padded explanation " "ip" "ua" 7).getD
        qPara).responses.map Response.explanation = [some "padded explanation"]
  ∧ some "padded explanation" ≠ some " padded explanation " := by
  decide

/-- C10 amended: on a paragraph question whose payload survives the
save-time validators (trimmed responseText non-empty and at most 2000
characters, trimmed explanation at most 1000), the method appends exactly
one response; when the explanation is empty or whitespace-only the record
carries no explanation field at all, and a non-blank explanation is stored
trimmed of surrounding whitespace (the schema trim setter), as is the
response text.  A payload whose responseText trims to the empty string is
rejected by the required validator at save() and persists nothing. -/
theorem paragraph_explanation_storage (q : Question) (text expl ip ua : String) (now : Int)
    (hq : q.questionType = QuestionType.paragraph)
    (hexp : (jsTrim expl).length ≤ 1000) :
    (jsTrim text ≠ "" → (jsTrim text).length ≤ 2000 →
      addParagraphResponse q text expl ip ua now
        = some { q with
            responses := q.responses ++ [{
              choice := none
              explanation := if jsTrim expl = "" then none else some (jsTrim expl)
              responseText := some (jsTrim text)
              timestamp := now, createdAt := now, ipAddress := ip, userAgent := ua }]
            updatedAt := now })
  ∧ (jsTrim text = "" → addParagraphResponse q text expl ip ua now = none) := by
  have hx : (if expl ≠ "" && jsTrim expl ≠ "" then some (jsTrim expl) else none)
      = (if jsTrim expl = "" then none else some (jsTrim expl)) := by
    by_cases he : expl = ""
    · subst he
      simp [jsTrim_empty]
    · by_cases ht : jsTrim expl = "" <;> simp [he, ht]
  constructor
  · intro ht hl
    by_cases he : jsTrim expl = ""
    · simp [addParagraphResponse, hq, hx, he, ht, hl]
    · have hne : expl ≠ "" := fun h0 => he (h0 ▸ jsTrim_empty)
      simp [addParagraphResponse, hq, hx, he, hne, ht, hl, hexp]
  · intro ht
    simp [addParagraphResponse, hq, ht]

/-- C10 witness: a whitespace-only explanation and a valid response text at
a concrete paragraph question. -/
theorem paragraph_explanation_storage_witness :
    addParagraphResponse qPara "resp text" "   " "ip" "ua" 7
      = some { qPara with
          responses := qPara.responses ++ [{
            choice := none
            explanation := if jsTrim "   " = "" then none else some (jsTrim "   ")
            responseText := some (jsTrim "resp text")
            timestamp := 7, createdAt := 7, ipAddress := "ip", userAgent := "ua" }]
          updatedAt := 7 } :=
  (paragraph_explanation_storage qPara "resp text" "   " "ip" "ua" 7 rfl (by decide)).1
    (by decide) (by decide)
